import Mathlib

/-!
# Verification of the rpad Document Session core

A shallow embedding of the state-machine core of `rpad` (src/rpad/src/main.rs):
the per-window `DocumentState`, the `buffer.connect_changed` edit handler, the
undo/redo actions, the find/replace search engine, mode switching, the sudo
(elevated write) workflow and the save path.

Document text is modelled as `List Char` (GTK text iterators are character
offsets).  External effects — the password prompt, the `sudo` validation and
copy helper processes, and plain file writes — are modelled as explicit
environment records whose fields record the outcome of each external step, so
every function of the embedding is a pure, executable function of its inputs.
-/

namespace Rpad

/-- Document text: a list of characters (GTK iter offsets are char offsets). -/
abbrev DocText := List Char

/-- The editing mode enum (src/rpad/src/main.rs, `enum Mode`). -/
inductive Mode
  | Plain
  | Markup
deriving DecidableEq, Repr

/-- The per-window session state (`struct DocumentState`, src/rpad/src/main.rs:55-77).
UI-only fields (zoom, CSS provider, labels, status box) are omitted: they hold no
session logic.  `sudo_expiry` is an instant in seconds (`std::time::Instant`). -/
structure DocumentState where
  path : Option DocText
  mode : Mode
  undo_stack : List DocText
  redo_stack : List DocText
  last_text : DocText
  is_programmatic : Bool
  dirty : Bool
  find_text : DocText
  match_case : Bool
  sudo_password : Option DocText
  sudo_expiry : Option Nat
deriving DecidableEq, Repr

/-- `DocumentState::new` (src/rpad/src/main.rs:80-114), session-relevant fields. -/
def DocumentState.new (initial : Option DocText) (initial_mode : Mode) : DocumentState :=
  { path := initial
    mode := initial_mode
    undo_stack := []
    redo_stack := []
    last_text := []
    is_programmatic := false
    dirty := false
    find_text := []
    match_case := false
    sudo_password := none
    sudo_expiry := none }

/-- The `buffer.connect_changed` handler (src/rpad/src/main.rs:236-256): fired once
per buffer mutation with the full buffer text.  If `is_programmatic` is set the
event is ignored; if the text equals `last_text` nothing happens; otherwise the
old `last_text` is pushed on the undo stack, the redo stack is cleared,
`last_text` is updated and the document becomes dirty. -/
def buffer_changed (s : DocumentState) (text : DocText) : DocumentState :=
  if s.is_programmatic then s
  else if text = s.last_text then s
  else
    { s with undo_stack := s.last_text :: s.undo_stack
             redo_stack := []
             last_text := text
             dirty := true }

/-- The `app.undo` action (src/rpad/src/main.rs:835-860): pop the undo stack; if a
snapshot is present, push the current text on the redo stack and restore the
snapshot programmatically (the buffer set fires `changed` while
`is_programmatic` is true, so nothing is recorded; the flag ends up false). -/
def undo_action (s : DocumentState) : DocumentState :=
  match s.undo_stack with
  | [] => s
  | prev_text :: rest =>
    { s with undo_stack := rest
             redo_stack := s.last_text :: s.redo_stack
             last_text := prev_text
             is_programmatic := false }

/-- The `app.redo` action (src/rpad/src/main.rs:863-888), symmetric to undo. -/
def redo_action (s : DocumentState) : DocumentState :=
  match s.redo_stack with
  | [] => s
  | next_text :: rest =>
    { s with redo_stack := rest
             undo_stack := s.last_text :: s.undo_stack
             last_text := next_text
             is_programmatic := false }

/-- A sequence of user edits, each delivered through the `changed` handler. -/
def applyEdits (s : DocumentState) (ts : List DocText) : DocumentState :=
  ts.foldl buffer_changed s

/-- `buffer_is_empty` (src/rpad/src/main.rs:517-521). -/
def buffer_is_empty (text : DocText) : Bool :=
  text.isEmpty

/-- Result reported back to the UI by the mode change handler. -/
inductive ModeChangeResult
  | unchanged
  | rejectedWithWarning
  | applied
deriving DecidableEq, Repr

/-- The `mode_action.connect_change_state` handler (src/rpad/src/main.rs:1138-1207):
same mode → sync action state and return; non-empty buffer → warning dialog and
abort; otherwise apply the mode and re-apply syntax highlighting. -/
def mode_change_state (s : DocumentState) (buffer_text : DocText) (requested : Mode) :
    DocumentState × ModeChangeResult :=
  if s.mode = requested then (s, ModeChangeResult.unchanged)
  else if !(buffer_is_empty buffer_text) then (s, ModeChangeResult.rejectedWithWarning)
  else ({ s with mode := requested }, ModeChangeResult.applied)

/-! ## Search engine (`search_in_buffer`, src/rpad/src/main.rs:1602-1640)

GTK's `forward_search` from an iter finds the first match starting at or after
the iter; `backward_search` the last match ending at or before it.  The
`CASE_INSENSITIVE` flag is modelled by folding both buffer and pattern through
`Char.toLower`. -/

/-- Does `pat` occur in `hay` starting at char offset `i`? -/
def matchesAt (hay pat : List Char) (i : Nat) : Bool :=
  (hay.drop i).take pat.length == pat

/-- Case folding applied by the search: identity when matching case, lowercase
otherwise (the `CASE_INSENSITIVE` text search flag). -/
def foldCase (match_case : Bool) (t : List Char) : List Char :=
  if match_case then t else t.map Char.toLower

/-- First occurrence of `pat` in `hay` at offset `≥ i` (GTK `forward_search`). -/
def findFrom (hay pat : List Char) (i : Nat) : Option Nat :=
  (List.range (hay.length + 1)).find? (fun j => decide (i ≤ j) && matchesAt hay pat j)

/-- Last occurrence of `pat` in `hay` ending at offset `≤ i` (GTK `backward_search`). -/
def findLastBefore (hay pat : List Char) (i : Nat) : Option Nat :=
  ((List.range (hay.length + 1)).filter
    (fun j => decide (j + pat.length ≤ i) && matchesAt hay pat j)).getLast?

/-- `search_in_buffer` (src/rpad/src/main.rs:1602-1640): empty pattern → no match;
otherwise search from the cursor to the relevant boundary and, on failure, retry
once from the opposite boundary (`or_else`).  Selection/scrolling are UI side
effects and are not part of the state model. -/
def search_in_buffer (buf pat : DocText) (cursor : Nat) (forward match_case : Bool) :
    Option (Nat × Nat) :=
  if pat = [] then none
  else
    let hay := foldCase match_case buf
    let needle := foldCase match_case pat
    if forward then
      match findFrom hay needle cursor with
      | some i => some (i, i + pat.length)
      | none =>
        match findFrom hay needle 0 with
        | some i => some (i, i + pat.length)
        | none => none
    else
      match findLastBefore hay needle cursor with
      | some i => some (i, i + pat.length)
      | none =>
        match findLastBefore hay needle hay.length with
        | some i => some (i, i + pat.length)
        | none => none

/-- The Replace dialog's Accept response (src/rpad/src/main.rs:1798-1827): store
the find parameters, forward-search from the cursor and, on a match `(a, b)`,
delete the span and insert the replacement.  The GTK buffer emits `changed`
once after the delete and once after the insert, so the `connect_changed`
handler (`buffer_changed`) runs on the intermediate text and then on the final
text — the `begin_user_action`/`end_user_action` bracket groups the pair only
for GtkSourceView's internal undo manager, which the app's own undo stack does
not consult.  Returns the new session state and the new buffer text. -/
def open_replace_response (s : DocumentState) (buf : DocText)
    (find_what replace_with : DocText) (mc : Bool) (cursor : Nat) :
    DocumentState × DocText :=
  let s0 := { s with find_text := find_what, match_case := mc }
  match search_in_buffer buf find_what cursor true mc with
  | some (a, b) =>
    let intermediate := buf.take a ++ buf.drop b
    let final := buf.take a ++ replace_with ++ buf.drop b
    (buffer_changed (buffer_changed s0 intermediate) final, final)
  | none => (s0, buf)

/-! ## Sudo helpers -/

/-- `prompt_for_password` (src/rpad/src/main.rs:1369-1419): `confirmed` is whether
the dialog was answered with OK; `entry_text` is the password entry's content.
Only a confirmed, non-empty entry yields a secret. -/
def prompt_for_password (confirmed : Bool) (entry_text : DocText) : Option DocText :=
  if confirmed then
    if entry_text.isEmpty then none else some entry_text
  else none

/-- Outcomes of the external steps inside `perform_sudo_save`: whether the temp
file write succeeds, whether spawning `sudo cp` succeeds, whether waiting on
the child succeeds, and the child's exit status. -/
structure HelperEnv where
  temp_write_ok : Bool
  spawn_ok : Bool
  wait_ok : Bool
  exit_success : Bool
deriving DecidableEq, Repr

/-- `perform_sudo_save` (src/rpad/src/main.rs:1449-1489).  The second component
records whether the staging file `rpad_sudo_save.tmp` still exists when the
function returns: the source calls `fs::remove_file` only inside the
`child.wait() = Ok(status)` branch. -/
def perform_sudo_save (env : HelperEnv) : Except String Unit × Bool :=
  if env.temp_write_ok then
    if env.spawn_ok then
      if env.wait_ok then
        if env.exit_success then (Except.ok (), false)
        else (Except.error "Sudo save failed", false)
      else (Except.error "Failed to wait on sudo", true)
    else (Except.error "Failed to spawn sudo", true)
  else (Except.error "Failed to write temp file", false)

/-- Outcome reported to the UI by the sudo-mode change handler. -/
inductive SudoOutcome
  | enabled
  | invalidPasswordDialog
  | cancelledSilently
  | disabledDialog
deriving DecidableEq, Repr

/-- The `sudo_mode.connect_change_state` handler (src/rpad/src/main.rs:1215-1277).
`prompt_result` is what `prompt_for_password` returned, `validate` the outcome
of `validate_sudo_password` (an external `sudo -S -v -k` probe), `now` the
current instant in seconds.  The returned `Bool` is the resulting action
state (the ElevatedOn indicator).  On enable: a validated secret is stored
with expiry `now + 300`; an invalid secret shows an error dialog and leaves
the state alone; a cancelled prompt does nothing at all.  On disable the
credential is dropped. -/
def sudo_mode_change_state (s : DocumentState) (new_state : Bool)
    (prompt_result : Option DocText) (validate : DocText → Bool) (now : Nat) :
    DocumentState × Bool × SudoOutcome :=
  if new_state then
    match prompt_result with
    | some password =>
      if validate password then
        ({ s with sudo_password := some password, sudo_expiry := some (now + 300) },
          true, SudoOutcome.enabled)
      else (s, false, SudoOutcome.invalidPasswordDialog)
    | none => (s, false, SudoOutcome.cancelledSilently)
  else
    ({ s with sudo_password := none, sudo_expiry := none }, false, SudoOutcome.disabledDialog)

/-! ## Save path -/

/-- Outcomes of the external steps inside `save_buffer_to_path`: the result of
the re-authentication prompt, the outcome of `validate_sudo_password`, the
helper environment for `perform_sudo_save`, whether the plain `fs::write`
succeeds, and the current instant in seconds. -/
structure SaveEnv where
  prompt_result : Option DocText
  validate : DocText → Bool
  helper : HelperEnv
  fs_write_ok : Bool
  now : Nat

/-- `save_buffer_to_path` (src/rpad/src/main.rs:523-613).  `text` is the buffer
content.  With a stored sudo credential: if expired (`now > expiry`, or no
expiry stored), re-prompt and re-validate — on success the refreshed secret
and a new expiry are stored *before* the privileged write; on failure or
cancellation the save aborts.  The write then goes through
`perform_sudo_save` (elevated) or plain `fs::write`.  Only on a successful
write are `dirty := false` and `last_text := text` applied (title update is
UI-only). -/
def save_buffer_to_path (s : DocumentState) (text : DocText) (env : SaveEnv) :
    DocumentState × Except String Unit :=
  match s.sudo_password with
  | some _pass =>
    let expired : Bool :=
      match s.sudo_expiry with
      | some expiry => decide (env.now > expiry)
      | none => true
    if expired then
      match env.prompt_result with
      | some new_pass =>
        if env.validate new_pass then
          let s1 := { s with sudo_password := some new_pass
                             sudo_expiry := some (env.now + 300) }
          match (perform_sudo_save env.helper).1 with
          | Except.ok _ => ({ s1 with dirty := false, last_text := text }, Except.ok ())
          | Except.error e => (s1, Except.error e)
        else (s, Except.error "Sudo re-authentication failed")
      | none => (s, Except.error "Sudo re-authentication cancelled")
    else
      match (perform_sudo_save env.helper).1 with
      | Except.ok _ => ({ s with dirty := false, last_text := text }, Except.ok ())
      | Except.error e => (s, Except.error e)
  | none =>
    if env.fs_write_ok then ({ s with dirty := false, last_text := text }, Except.ok ())
    else (s, Except.error "Failed to write file")

/-! ## Theorems -/

/-- C4: for every text-changed event: with `is_programmatic` set the event changes
no session state; otherwise a text equal to `last_text` is a no-op; and a
differing text pushes the old `last_text` on the undo stack, clears the redo
stack, updates `last_text` and sets `dirty` — every non-suppressed real edit
clears the redo stack. -/
theorem C4_text_changed_semantics :
    ∀ (s : DocumentState) (t : DocText),
      (s.is_programmatic = true → buffer_changed s t = s) ∧
      (s.is_programmatic = false → t = s.last_text → buffer_changed s t = s) ∧
      (s.is_programmatic = false → t ≠ s.last_text →
        buffer_changed s t =
          { s with undo_stack := s.last_text :: s.undo_stack
                   redo_stack := []
                   last_text := t
                   dirty := true }) := by
  intro s t
  refine ⟨fun h => by simp [buffer_changed, h],
          fun h h2 => by simp [buffer_changed, h, h2],
          fun h h2 => by simp [buffer_changed, h, h2]⟩

/-- Witness for C4 at concrete inputs: a suppressed event, an equal-text event
and a real edit. -/
theorem C4_witness :
    buffer_changed { DocumentState.new none Mode.Plain with is_programmatic := true } ['x']
        = { DocumentState.new none Mode.Plain with is_programmatic := true } ∧
    buffer_changed (DocumentState.new none Mode.Plain) [] = DocumentState.new none Mode.Plain ∧
    buffer_changed (DocumentState.new none Mode.Plain) ['x']
        = { DocumentState.new none Mode.Plain with
              undo_stack := [[]], redo_stack := [], last_text := ['x'], dirty := true } := by
  refine ⟨(C4_text_changed_semantics _ _).1 rfl,
          (C4_text_changed_semantics _ _).2.1 rfl rfl,
          ?_⟩
  exact (C4_text_changed_semantics (DocumentState.new none Mode.Plain) ['x']).2.2 rfl (by decide)

/-- C7: the mode change handler leaves the state untouched whenever the buffer is
non-empty (a warning is shown when the modes actually differ); an equal
requested mode is a no-op; with an empty buffer and differing modes the mode is
applied and highlighting re-applied. -/
theorem C7_mode_change_guards :
    ∀ (s : DocumentState) (buffer_text : DocText) (requested : Mode),
      (buffer_is_empty buffer_text = false →
        (mode_change_state s buffer_text requested).1 = s) ∧
      (buffer_is_empty buffer_text = false → s.mode ≠ requested →
        mode_change_state s buffer_text requested = (s, ModeChangeResult.rejectedWithWarning)) ∧
      (s.mode = requested →
        mode_change_state s buffer_text requested = (s, ModeChangeResult.unchanged)) ∧
      (buffer_is_empty buffer_text = true → s.mode ≠ requested →
        mode_change_state s buffer_text requested
          = ({ s with mode := requested }, ModeChangeResult.applied)) := by
  intro s bt req
  refine ⟨?_, ?_, ?_, ?_⟩
  · intro hbt
    by_cases hm : s.mode = req <;> simp [mode_change_state, hm, hbt]
  · intro hbt hm
    simp [mode_change_state, hm, hbt]
  · intro hm
    simp [mode_change_state, hm]
  · intro hbt hm
    simp [mode_change_state, hm, hbt]

/-- Witness for C7 at concrete inputs: non-empty buffer rejection, equal-mode
no-op, empty-buffer application. -/
theorem C7_witness :
    (mode_change_state (DocumentState.new none Mode.Plain) ['x'] Mode.Markup).1
        = DocumentState.new none Mode.Plain ∧
    mode_change_state (DocumentState.new none Mode.Plain) ['x'] Mode.Markup
        = (DocumentState.new none Mode.Plain, ModeChangeResult.rejectedWithWarning) ∧
    mode_change_state (DocumentState.new none Mode.Plain) ['x'] Mode.Plain
        = (DocumentState.new none Mode.Plain, ModeChangeResult.unchanged) ∧
    mode_change_state (DocumentState.new none Mode.Plain) [] Mode.Markup
        = ({ DocumentState.new none Mode.Plain with mode := Mode.Markup },
           ModeChangeResult.applied) := by
  refine ⟨(C7_mode_change_guards _ _ _).1 rfl,
          (C7_mode_change_guards _ _ _).2.1 rfl (by decide),
          (C7_mode_change_guards _ _ _).2.2.1 rfl,
          (C7_mode_change_guards _ _ _).2.2.2 rfl (by decide)⟩

/-- C8 counterexample: cancelling the password prompt while enabling sudo mode
leaves the session ElevatedOff with no credential, but *silently* — the
handler's cancellation branch shows no dialog (`SudoOutcome.cancelledSilently`,
from the source comment "If cancelled, do nothing"), contradicting the claim
that an error is surfaced on cancellation. -/
theorem C8_counterexample :
    sudo_mode_change_state (DocumentState.new none Mode.Plain) true none (fun _ => true) 0
      = (DocumentState.new none Mode.Plain, false, SudoOutcome.cancelledSilently) := rfl

/-- C8 as amended: on a validated secret the credential is stored with expiry
`now + 300` and the session enters ElevatedOn; on validation failure the state
is unchanged and an error dialog is shown; on prompt cancellation the state is
unchanged and nothing is surfaced (a silent no-op rather than an error). -/
theorem C8_amended_sudo_enable :
    ∀ (s : DocumentState) (p : DocText) (validate : DocText → Bool) (now : Nat),
      (validate p = true →
        sudo_mode_change_state s true (some p) validate now
          = ({ s with sudo_password := some p, sudo_expiry := some (now + 300) },
             true, SudoOutcome.enabled)) ∧
      (validate p = false →
        sudo_mode_change_state s true (some p) validate now
          = (s, false, SudoOutcome.invalidPasswordDialog)) ∧
      (sudo_mode_change_state s true none validate now
          = (s, false, SudoOutcome.cancelledSilently)) := by
  intro s p validate now
  refine ⟨fun h => by simp [sudo_mode_change_state, h],
          fun h => by simp [sudo_mode_change_state, h],
          rfl⟩

/-- Witness for C8 (amended) at concrete inputs: a successful validation and a
rejected one. -/
theorem C8_amended_witness :
    sudo_mode_change_state (DocumentState.new none Mode.Plain) true (some ['p']) (fun _ => true) 7
      = ({ DocumentState.new none Mode.Plain with
             sudo_password := some ['p'], sudo_expiry := some 307 },
         true, SudoOutcome.enabled) ∧
    sudo_mode_change_state (DocumentState.new none Mode.Plain) true (some ['p']) (fun _ => false) 7
      = (DocumentState.new none Mode.Plain, false, SudoOutcome.invalidPasswordDialog) := by
  exact ⟨(C8_amended_sudo_enable (DocumentState.new none Mode.Plain) ['p'] (fun _ => true) 7).1 rfl,
         (C8_amended_sudo_enable (DocumentState.new none Mode.Plain) ['p'] (fun _ => false) 7).2.1 rfl⟩

/-- C2 counterexample: when spawning the privilege-escalation helper fails, the
staging file has been written but is *not* removed (`fs::remove_file` is only
reached inside the `child.wait() = Ok` branch), so the claim that the staging
file is removed on every exit path fails on the spawn-failure path. -/
theorem C2_counterexample :
    perform_sudo_save ⟨true, false, true, true⟩
      = (Except.error "Failed to spawn sudo", true) := rfl

/-- C2 as amended: the staging file survives `perform_sudo_save` exactly when it
was written and then either spawning the helper or waiting on it failed; in
particular whenever the wait on the helper completes, the staging file is
removed regardless of the helper's exit status, but on spawn failure or wait
failure it is left behind. -/
theorem C2_amended_staging_cleanup :
    ∀ env : HelperEnv,
      (perform_sudo_save env).2
        = (env.temp_write_ok && (!env.spawn_ok || !env.wait_ok)) := by
  intro env
  obtain ⟨tw, sp, wa, ex⟩ := env
  cases tw <;> cases sp <;> cases wa <;> cases ex <;> rfl

/-- C1 evaluated at the failing input (buffer `"ab"`, find `"a"`, replacement
`"x"`, cursor at the start, match-case on, clean non-programmatic session with
`last_text = "ab"`): the replace produces `"xb"`, but a single undo restores
the post-delete-pre-insert intermediate text `"b"`, not the pre-replace text
`"ab"` — two undos are needed.  The `changed` signal fires once for the delete
and once for the insert, so the custom undo stack records two entries even
though the source brackets the pair in `begin_user_action`/`end_user_action`
(which only GtkSourceView's unused internal undo manager honours). -/
theorem C1_replace_single_undo_eval :
    (open_replace_response { DocumentState.new none Mode.Plain with last_text := ['a','b'] }
        ['a','b'] ['a'] ['x'] true 0).2 = ['x','b'] ∧
    (undo_action (open_replace_response
        { DocumentState.new none Mode.Plain with last_text := ['a','b'] }
        ['a','b'] ['a'] ['x'] true 0).1).last_text = ['b'] ∧
    (undo_action (undo_action (open_replace_response
        { DocumentState.new none Mode.Plain with last_text := ['a','b'] }
        ['a','b'] ['a'] ['x'] true 0).1)).last_text = ['a','b'] := by
  refine ⟨by decide, by decide, by decide⟩

/-- C10: the password prompt never yields an empty secret — confirming the dialog
with an empty entry returns nothing, so every secret it does return is
non-empty, and both the sudo-mode enable handler and the expired-credential
refresh inside save behave identically on an empty-entry confirmation and on a
cancellation. -/
theorem C10_empty_password_like_cancel :
    (∀ confirmed : Bool, prompt_for_password confirmed [] = none) ∧
    (∀ (confirmed : Bool) (t r : DocText),
        prompt_for_password confirmed t = some r → r.isEmpty = false) ∧
    (∀ (s : DocumentState) (validate : DocText → Bool) (now : Nat),
        sudo_mode_change_state s true (prompt_for_password true []) validate now
          = sudo_mode_change_state s true none validate now) ∧
    (∀ (s : DocumentState) (text : DocText) (env : SaveEnv),
        save_buffer_to_path s text { env with prompt_result := prompt_for_password true [] }
          = save_buffer_to_path s text { env with prompt_result := none }) := by
  refine ⟨fun c => by cases c <;> rfl, ?_, fun s v n => rfl, fun s t env => rfl⟩
  intro c t r h
  cases c with
  | false => simp [prompt_for_password] at h
  | true =>
    by_cases ht : t.isEmpty
    · simp [prompt_for_password, ht] at h
    · simp [prompt_for_password, ht] at h
      rw [← h]
      simpa using ht

/-- Witness for C10 at concrete inputs: an empty confirmed entry yields no
secret, a returned secret is non-empty, and the two consumers treat the empty
confirmation like a cancellation. -/
theorem C10_witness :
    prompt_for_password true [] = none ∧
    (['a'] : DocText).isEmpty = false ∧
    sudo_mode_change_state (DocumentState.new none Mode.Plain) true
        (prompt_for_password true []) (fun _ => true) 0
      = sudo_mode_change_state (DocumentState.new none Mode.Plain) true none (fun _ => true) 0 ∧
    save_buffer_to_path (DocumentState.new none Mode.Plain) ['h']
        { prompt_result := prompt_for_password true [], validate := fun _ => true,
          helper := ⟨true, true, true, true⟩, fs_write_ok := true, now := 0 }
      = save_buffer_to_path (DocumentState.new none Mode.Plain) ['h']
        { prompt_result := none, validate := fun _ => true,
          helper := ⟨true, true, true, true⟩, fs_write_ok := true, now := 0 } := by
  refine ⟨C10_empty_password_like_cancel.1 true,
          C10_empty_password_like_cancel.2.1 true ['a'] ['a'] rfl,
          C10_empty_password_like_cancel.2.2.1 _ _ _,
          ?_⟩
  exact C10_empty_password_like_cancel.2.2.2 (DocumentState.new none Mode.Plain) ['h']
    { prompt_result := none, validate := fun _ => true,
      helper := ⟨true, true, true, true⟩, fs_write_ok := true, now := 0 }

/-- A buffer-changed event carrying the current `last_text` never changes the
state, whether or not history is suppressed. -/
theorem buffer_changed_last_text (s : DocumentState) : buffer_changed s s.last_text = s := by
  cases h : s.is_programmatic <;> simp [buffer_changed, h]

/-- Exhaustive shape of `save_buffer_to_path`: it either fails with the state
untouched, succeeds marking the document clean, or — exactly in the
expired-credential refresh path — stores the freshly validated credential
(with expiry `env.now + 300`) and then either succeeds or fails with that
refreshed credential retained. -/
theorem save_buffer_to_path_cases (s : DocumentState) (text : DocText) (env : SaveEnv) :
    (∃ e, save_buffer_to_path s text env = (s, Except.error e)) ∨
    (save_buffer_to_path s text env
        = ({ s with dirty := false, last_text := text }, Except.ok ())) ∨
    (∃ p, env.prompt_result = some p ∧
      (save_buffer_to_path s text env
          = ({ s with sudo_password := some p, sudo_expiry := some (env.now + 300),
                      dirty := false, last_text := text }, Except.ok ()) ∨
       ∃ e, save_buffer_to_path s text env
          = ({ s with sudo_password := some p, sudo_expiry := some (env.now + 300) },
             Except.error e))) := by
  cases hsp : s.sudo_password with
  | none =>
    by_cases hw : env.fs_write_ok
    · right; left; simp [save_buffer_to_path, hsp, hw]
    · left
      refine ⟨"Failed to write file", ?_⟩
      simp [save_buffer_to_path, hsp, hw]
  | some pass =>
    by_cases hexpired : (match s.sudo_expiry with
        | some expiry => decide (env.now > expiry)
        | none => true) = true
    · cases hpr : env.prompt_result with
      | none =>
        left
        refine ⟨"Sudo re-authentication cancelled", ?_⟩
        simp [save_buffer_to_path, hsp, hexpired, hpr]
      | some new_pass =>
        by_cases hv : env.validate new_pass
        · cases hps : (perform_sudo_save env.helper).1 with
          | ok u =>
            right; right
            refine ⟨new_pass, rfl, Or.inl ?_⟩
            simp [save_buffer_to_path, hsp, hexpired, hpr, hv, hps]
          | error e =>
            right; right
            refine ⟨new_pass, rfl, Or.inr ⟨e, ?_⟩⟩
            simp [save_buffer_to_path, hsp, hexpired, hpr, hv, hps]
        · left
          refine ⟨"Sudo re-authentication failed", ?_⟩
          simp [save_buffer_to_path, hsp, hexpired, hpr, hv]
    · cases hps : (perform_sudo_save env.helper).1 with
      | ok u => right; left; simp [save_buffer_to_path, hsp, hexpired, hps]
      | error e =>
        left
        refine ⟨e, ?_⟩
        simp [save_buffer_to_path, hsp, hexpired, hps]

/-- C3 counterexample: a failed save *can* mutate the stored credential.  State:
sudo mode active with credential `"old"` expired at instant 10; at instant 20 a
save re-prompts, the user supplies `"new"` which validates, the refreshed
credential is stored, and then the helper copy fails — the save returns an
error but `sudo_password` is now `"new"` with expiry 320, contradicting "the
stored credential and expiry are not mutated" on a failed save. -/
theorem C3_counterexample :
    save_buffer_to_path
        { DocumentState.new none Mode.Plain with
            sudo_password := some ['o','l','d'], sudo_expiry := some 10,
            last_text := ['h','i'], dirty := true }
        ['h','i']
        { prompt_result := some ['n','e','w'], validate := fun _ => true,
          helper := ⟨true, true, true, false⟩, fs_write_ok := true, now := 20 }
      = ({ DocumentState.new none Mode.Plain with
             sudo_password := some ['n','e','w'], sudo_expiry := some 320,
             last_text := ['h','i'], dirty := true },
         Except.error "Sudo save failed") := rfl

/-- C3 as amended: whenever `save_buffer_to_path` fails, `dirty`, `last_text` and
both history stacks are unchanged, and the state is either fully unchanged or —
only in the path where an expired credential was successfully re-validated
before the privileged write failed — changed exactly by storing the freshly
prompted credential with expiry `env.now + 300`. -/
theorem C3_amended_failed_save_state (s : DocumentState) (text : DocText) (env : SaveEnv)
    (e : String) (h : (save_buffer_to_path s text env).2 = Except.error e) :
    (save_buffer_to_path s text env).1.dirty = s.dirty ∧
    (save_buffer_to_path s text env).1.last_text = s.last_text ∧
    (save_buffer_to_path s text env).1.undo_stack = s.undo_stack ∧
    (save_buffer_to_path s text env).1.redo_stack = s.redo_stack ∧
    ((save_buffer_to_path s text env).1 = s ∨
     (save_buffer_to_path s text env).1
        = { s with sudo_password := env.prompt_result,
                   sudo_expiry := some (env.now + 300) }) := by
  rcases save_buffer_to_path_cases s text env with ⟨e', hc⟩ | hc | ⟨p, hp, hc | ⟨e', hc⟩⟩
  · rw [hc]
    exact ⟨rfl, rfl, rfl, rfl, Or.inl rfl⟩
  · rw [hc] at h
    simp at h
  · rw [hc] at h
    simp at h
  · rw [hc, hp]
    exact ⟨rfl, rfl, rfl, rfl, Or.inr rfl⟩

/-- Witness for C3 (amended) at the concrete failing save from the
counterexample input. -/
theorem C3_amended_witness :
    (save_buffer_to_path
        { DocumentState.new none Mode.Plain with
            sudo_password := some ['o','l','d'], sudo_expiry := some 10,
            last_text := ['h','i'], dirty := true }
        ['h','i']
        { prompt_result := some ['n','e','w'], validate := fun _ => true,
          helper := ⟨true, true, true, false⟩, fs_write_ok := true, now := 20 }).1.dirty = true ∧
    (save_buffer_to_path
        { DocumentState.new none Mode.Plain with
            sudo_password := some ['o','l','d'], sudo_expiry := some 10,
            last_text := ['h','i'], dirty := true }
        ['h','i']
        { prompt_result := some ['n','e','w'], validate := fun _ => true,
          helper := ⟨true, true, true, false⟩, fs_write_ok := true, now := 20 }).1.last_text
      = ['h','i'] := by
  have h := C3_amended_failed_save_state
    { DocumentState.new none Mode.Plain with
        sudo_password := some ['o','l','d'], sudo_expiry := some 10,
        last_text := ['h','i'], dirty := true }
    ['h','i']
    { prompt_result := some ['n','e','w'], validate := fun _ => true,
      helper := ⟨true, true, true, false⟩, fs_write_ok := true, now := 20 }
    "Sudo save failed" rfl
  exact ⟨h.1, h.2.1⟩

/-- C9: after every successful save the document is clean and `last_text` equals
the saved text, so a subsequent text-changed event carrying the same text is a
complete no-op (no undo push, `dirty` stays false). -/
theorem C9_successful_save_then_noop (s : DocumentState) (text : DocText) (env : SaveEnv)
    (h : (save_buffer_to_path s text env).2 = Except.ok ()) :
    (save_buffer_to_path s text env).1.dirty = false ∧
    (save_buffer_to_path s text env).1.last_text = text ∧
    buffer_changed (save_buffer_to_path s text env).1 text
      = (save_buffer_to_path s text env).1 := by
  rcases save_buffer_to_path_cases s text env with ⟨e', hc⟩ | hc | ⟨p, hp, hc | ⟨e', hc⟩⟩
  · rw [hc] at h
    simp at h
  · rw [hc]
    exact ⟨rfl, rfl, buffer_changed_last_text _⟩
  · rw [hc]
    exact ⟨rfl, rfl, buffer_changed_last_text _⟩
  · rw [hc] at h
    simp at h

/-- Witness for C9 at a concrete successful plain save. -/
theorem C9_witness :
    (save_buffer_to_path (DocumentState.new none Mode.Plain) ['h','i']
        { prompt_result := none, validate := fun _ => true,
          helper := ⟨true, true, true, true⟩, fs_write_ok := true, now := 0 }).1.dirty = false ∧
    (save_buffer_to_path (DocumentState.new none Mode.Plain) ['h','i']
        { prompt_result := none, validate := fun _ => true,
          helper := ⟨true, true, true, true⟩, fs_write_ok := true, now := 0 }).1.last_text
      = ['h','i'] ∧
    buffer_changed
        (save_buffer_to_path (DocumentState.new none Mode.Plain) ['h','i']
          { prompt_result := none, validate := fun _ => true,
            helper := ⟨true, true, true, true⟩, fs_write_ok := true, now := 0 }).1 ['h','i']
      = (save_buffer_to_path (DocumentState.new none Mode.Plain) ['h','i']
          { prompt_result := none, validate := fun _ => true,
            helper := ⟨true, true, true, true⟩, fs_write_ok := true, now := 0 }).1 :=
  C9_successful_save_then_noop (DocumentState.new none Mode.Plain) ['h','i']
    { prompt_result := none, validate := fun _ => true,
      helper := ⟨true, true, true, true⟩, fs_write_ok := true, now := 0 } rfl

/-- A real (non-suppressed, text-changing) edit, unfolded. -/
theorem buffer_changed_of_ne (s : DocumentState) (t : DocText)
    (hprog : s.is_programmatic = false) (hne : t ≠ s.last_text) :
    buffer_changed s t
      = { s with undo_stack := s.last_text :: s.undo_stack
                 redo_stack := []
                 last_text := t
                 dirty := true } := by
  simp [buffer_changed, hprog, hne]

/-- Undoing once per edit after a run of consecutively-distinct edits restores
the pre-edit state, with the edited texts accumulated on the redo stack. -/
theorem undo_iterate_applyEdits (ts : List DocText) :
    ∀ s : DocumentState, s.is_programmatic = false →
      List.Chain' (fun a b => a ≠ b) (s.last_text :: ts) →
      undo_action^[ts.length] (applyEdits s ts)
        = if ts = [] then s else { s with redo_stack := ts, dirty := true } := by
  induction ts with
  | nil =>
    intro s _ _
    simp [applyEdits]
  | cons t ts ih =>
    intro s hprog hchain
    obtain ⟨hne, hchain'⟩ := List.chain'_cons.mp hchain
    have hs1 := buffer_changed_of_ne s t hprog (Ne.symm hne)
    have happ : applyEdits s (t :: ts) = applyEdits (buffer_changed s t) ts := rfl
    have hkey := ih (buffer_changed s t) (by rw [hs1]; exact hprog) (by rw [hs1]; exact hchain')
    rw [List.length_cons, happ, Function.iterate_succ_apply', hkey, hs1]
    by_cases hts : ts = []
    · subst hts
      simp [undo_action, hprog]
    · simp only [if_neg hts, if_neg (List.cons_ne_nil t ts)]
      simp [undo_action, hprog]

/-- Redoing once per entry of the redo stack replays the edits forward,
reconstructing exactly the post-edit state. -/
theorem redo_iterate_applyEdits (ts : List DocText) :
    ∀ s : DocumentState, s.is_programmatic = false → ts ≠ [] →
      List.Chain' (fun a b => a ≠ b) (s.last_text :: ts) →
      redo_action^[ts.length] { s with redo_stack := ts, dirty := true }
        = applyEdits s ts := by
  induction ts with
  | nil =>
    intro s _ h _
    exact absurd rfl h
  | cons t ts ih =>
    intro s hprog _ hchain
    obtain ⟨hne, hchain'⟩ := List.chain'_cons.mp hchain
    have hs1 := buffer_changed_of_ne s t hprog (Ne.symm hne)
    have happ : applyEdits s (t :: ts) = applyEdits (buffer_changed s t) ts := rfl
    rw [List.length_cons, Function.iterate_succ_apply]
    have hstep : redo_action { s with redo_stack := t :: ts, dirty := true }
        = { s with undo_stack := s.last_text :: s.undo_stack
                   redo_stack := ts
                   last_text := t
                   dirty := true
                   is_programmatic := false } := by
      simp [redo_action]
    rw [hstep]
    by_cases hts : ts = []
    · subst hts
      rw [happ, hs1]
      simp [applyEdits, hprog]
    · have hkey := ih (buffer_changed s t) (by rw [hs1]; exact hprog) hts
        (by rw [hs1]; exact hchain')
      rw [hs1] at hkey
      rw [happ, hs1, ← hkey, hprog]

/-- C5: starting from any non-suppressed session state, a run of `n` edits with
pairwise-distinct texts (original included) is fully reverted by `n` undos —
the buffer text returns to the original — and `n` redos then replay forward to
exactly the post-edit state (final text, stacks and all); an undo or redo
invoked with its stack empty changes nothing. -/
theorem C5_snapshot_stack_symmetry :
    (∀ (s : DocumentState) (ts : List DocText),
        s.is_programmatic = false →
        List.Pairwise (fun a b => a ≠ b) (s.last_text :: ts) →
        (undo_action^[ts.length] (applyEdits s ts)).last_text = s.last_text ∧
        redo_action^[ts.length] (undo_action^[ts.length] (applyEdits s ts))
          = applyEdits s ts) ∧
    (∀ s : DocumentState, s.undo_stack = [] → undo_action s = s) ∧
    (∀ s : DocumentState, s.redo_stack = [] → redo_action s = s) := by
  refine ⟨?_, ?_, ?_⟩
  · intro s ts hprog hpw
    have hchain := hpw.chain'
    have hA := undo_iterate_applyEdits ts s hprog hchain
    by_cases hts : ts = []
    · subst hts
      simp [applyEdits]
    · rw [hA, if_neg hts]
      exact ⟨rfl, redo_iterate_applyEdits ts s hprog hts hchain⟩
  · intro s h
    simp [undo_action, h]
  · intro s h
    simp [redo_action, h]

/-- Witness for C5: two concrete distinct edits from the fresh empty session are
reverted by two undos and replayed by two redos; undo and redo on the fresh
session (empty stacks) are no-ops. -/
theorem C5_witness :
    ((undo_action^[2] (applyEdits (DocumentState.new none Mode.Plain) [['a'], ['b']])).last_text
        = [] ∧
     redo_action^[2] (undo_action^[2]
          (applyEdits (DocumentState.new none Mode.Plain) [['a'], ['b']]))
        = applyEdits (DocumentState.new none Mode.Plain) [['a'], ['b']]) ∧
    undo_action (DocumentState.new none Mode.Plain) = DocumentState.new none Mode.Plain ∧
    redo_action (DocumentState.new none Mode.Plain) = DocumentState.new none Mode.Plain := by
  refine ⟨?_, C5_snapshot_stack_symmetry.2.1 _ rfl, C5_snapshot_stack_symmetry.2.2 _ rfl⟩
  exact C5_snapshot_stack_symmetry.1 (DocumentState.new none Mode.Plain) [['a'], ['b']]
    rfl (by decide)

/-- Case folding preserves length. -/
theorem foldCase_length (mc : Bool) (t : List Char) : (foldCase mc t).length = t.length := by
  cases mc <;> simp [foldCase]

/-- Case folding preserves non-emptiness. -/
theorem foldCase_ne_nil (mc : Bool) (t : List Char) (h : t ≠ []) : foldCase mc t ≠ [] := by
  cases mc <;> simp [foldCase, h]

/-- A match of a non-empty pattern starts strictly inside the haystack. -/
theorem matchesAt_lt_length {hay pat : List Char} {i : Nat}
    (hm : matchesAt hay pat i = true) (hp : pat ≠ []) : i < hay.length := by
  have h : (hay.drop i).take pat.length = pat := by simpa [matchesAt] using hm
  by_contra hlt
  push_neg at hlt
  rw [List.drop_eq_nil_of_le hlt] at h
  simp at h
  exact hp h

/-- `find?` returns the unique element satisfying the predicate when there is
exactly one. -/
theorem find?_eq_some_of_unique {α : Type} (f : α → Bool) :
    ∀ (l : List α) (x : α), x ∈ l → f x = true →
      (∀ y ∈ l, f y = true → y = x) → l.find? f = some x := by
  intro l
  induction l with
  | nil =>
    intro x hx
    exact absurd hx (List.not_mem_nil x)
  | cons a l ih =>
    intro x hx hfx huniq
    by_cases ha : f a = true
    · rw [List.find?_cons_of_pos _ ha, huniq a (List.mem_cons_self a l) ha]
    · rw [List.find?_cons_of_neg _ ha]
      rcases List.mem_cons.mp hx with h | h
      · subst h
        exact absurd hfx ha
      · exact ih x h hfx (fun y hy hfy => huniq y (List.mem_cons_of_mem a hy) hfy)

/-- C6: the search engine returns no match for the empty pattern, for every
buffer, cursor position, direction and case setting; and for a pattern with a
unique (case-folded) occurrence at `p`, a forward search started anywhere past
the match finds nothing up to the end of the buffer, wraps once to the start
(each direction is tried at most once: the definition makes at most two
scans), and returns that same match `(p, p + |pattern|)`. -/
theorem C6_search_empty_and_wraparound :
    (∀ (buf : DocText) (cursor : Nat) (forward mc : Bool),
        search_in_buffer buf [] cursor forward mc = none) ∧
    (∀ (buf pat : DocText) (cursor p : Nat) (mc : Bool),
        pat ≠ [] →
        matchesAt (foldCase mc buf) (foldCase mc pat) p = true →
        (∀ j, j ≤ buf.length → matchesAt (foldCase mc buf) (foldCase mc pat) j = true → j = p) →
        p < cursor →
        search_in_buffer buf pat cursor true mc = some (p, p + pat.length)) := by
  constructor
  · intro buf cursor forward mc
    rfl
  · intro buf pat cursor p mc hpat hm huniq hcur
    have hbuflen : (foldCase mc buf).length = buf.length := foldCase_length mc buf
    have hplen : p < buf.length := by
      have := matchesAt_lt_length hm (foldCase_ne_nil mc pat hpat)
      omega
    have h1 : findFrom (foldCase mc buf) (foldCase mc pat) cursor = none := by
      unfold findFrom
      rw [List.find?_eq_none]
      intro j hj
      simp only [Bool.and_eq_true, decide_eq_true_eq, not_and]
      intro hcj hmj
      have hjle : j ≤ buf.length := by
        have := List.mem_range.mp hj
        omega
      have := huniq j hjle hmj
      omega
    have h2 : findFrom (foldCase mc buf) (foldCase mc pat) 0 = some p := by
      unfold findFrom
      apply find?_eq_some_of_unique
      · exact List.mem_range.mpr (by omega)
      · simp [hm]
      · intro y hy
        simp only [Bool.and_eq_true, decide_eq_true_eq, and_imp]
        intro _ hmy
        exact huniq y (by have := List.mem_range.mp hy; omega) hmy
    simp [search_in_buffer, hpat, h1, h2]

/-- Witness for C6: in buffer `"ab"` the pattern `"a"` occurs exactly once, at
offset 0; a forward case-sensitive search from cursor 1 (past the match) wraps
and returns `(0, 1)`. -/
theorem C6_witness :
    search_in_buffer ['a','b'] ['a'] 1 true true = some (0, 1) := by
  have h := C6_search_empty_and_wraparound.2 ['a','b'] ['a'] 1 0 true
    (by decide) (by decide) (by decide) (by decide)
  simpa using h

end Rpad
